import Mathlib

/-!
Verification of the rk3506-amp-demo DMX512 gateway.

This file gives a shallow embedding, in Lean 4, of the parts of the
repository that the checked claims talk about:

* the wire codec (`dmx_protocol.h`, `dmx_client.c`),
* the tiny-core (MCU) byte-by-byte command parser and dispatcher
  (`firmware-mcu/src/main.c`),
* the two DMX frame-engine variants
  (`firmware-ap/dmx_driver.c` for the RT-Thread/AP variant and the MCU
  `dmx_driver.c` for the bare-metal variant),
* the Linux-side DMX state coordinator and subprocess client
  (`dmx-gateway/internal/dmx/state.go`, `client.go`).

Bytes are modelled as `Nat` values (all byte-typed C data is < 256; the
XOR and modular arithmetic used below preserve that bound).  Machine
integers are `Nat`/`Int` with explicit bounds where overflow matters;
C early returns become nested conditionals; byte buffers become
`List Nat`.
-/

namespace DmxAmp

set_option maxRecDepth 8192

/-! ### Wire protocol constants (dmx_protocol.h) -/

def DMX_MAGIC_CMD : Nat := 0xAA
def DMX_MAGIC_RESP : Nat := 0xBB

def STATUS_OK : Nat := 0x00
def STATUS_ERROR : Nat := 0xFF
def STATUS_INVALID_MAGIC : Nat := 0x01
def STATUS_INVALID_CHECKSUM : Nat := 0x02
def STATUS_INVALID_CMD : Nat := 0x03
def STATUS_INVALID_LENGTH : Nat := 0x04

def CMD_DMX_SET_CHANNELS : Nat := 0x01
def CMD_DMX_GET_STATUS : Nat := 0x02
def CMD_DMX_ENABLE : Nat := 0x03
def CMD_DMX_DISABLE : Nat := 0x04
def CMD_DMX_BLACKOUT : Nat := 0x05
def CMD_DMX_SET_TIMING : Nat := 0x06
def CMD_DMX_GET_TIMING : Nat := 0x07

/-- Modelled from the spec: the tiny-core-only SYSTEM_RESET opcode is
declared in `dmx_protocol_mcu.h`, which is not present under `src/`
(only its user `firmware-mcu/src/main.c` is).  The spec lists it as a
command id outside `0x01..0x07`; none of the claims depend on its
numeric value, so we pick the next free id. -/
def CMD_SYSTEM_RESET : Nat := 0x08

/-- Modelled from the spec and the comment in
`handle_cmd_system_reset`: the 4-byte guard magic is 0xDEADBEEF. -/
def SYSTEM_RESET_MAGIC : Nat := 0xDEADBEEF

/-- XOR checksum over a byte list (`dmx_calc_checksum` in
`dmx_protocol.h`): XOR of every byte of the buffer. -/
def dmx_calc_checksum (data : List Nat) : Nat :=
  data.foldl (fun s b => s ^^^ b) 0

/-- `dmx_verify_checksum` in `dmx_protocol.h`: a packet shorter than 5
bytes is invalid; otherwise the XOR of all bytes but the last must
equal the last byte. -/
def dmx_verify_checksum (packet : List Nat) : Bool :=
  if packet.length < 5 then false
  else dmx_calc_checksum packet.dropLast == packet.getLastD 0

/-- `build_cmd_packet` in `dmx_client.c`: header
`[magic, cmd, len_lo, len_hi]`, payload, then the XOR checksum of
everything before it. -/
def build_cmd_packet (cmd : Nat) (payload : List Nat) : List Nat :=
  let hdr := [DMX_MAGIC_CMD, cmd, payload.length % 256,
              payload.length / 256 % 256] ++ payload
  hdr ++ [dmx_calc_checksum hdr]

/-- Little-endian 16-bit encoding of a value (packed C struct fields). -/
def le16 (n : Nat) : List Nat := [n % 256, n / 256 % 256]

/-- Little-endian 32-bit encoding of a value (packed C struct fields). -/
def le32 (n : Nat) : List Nat :=
  [n % 256, n / 256 % 256, n / 65536 % 256, n / 16777216 % 256]

/-- Bytes put on the wire by `send_response` in `firmware-mcu/src/main.c`:
`[0xBB, status, len_lo, len_hi]`, payload, XOR checksum.  (The C code
copies at most 27 payload bytes into its 32-byte buffer; every call
site passes at most 9, so the copy is never truncated.) -/
def respBytes (r : Nat × List Nat) : List Nat :=
  let hdr := [DMX_MAGIC_RESP, r.1, r.2.length % 256,
              r.2.length / 256 % 256] ++ r.2
  hdr ++ [dmx_calc_checksum hdr]

/-! ### The MCU byte-by-byte command parser (`parse_rx_byte`)

State of the restartable decoder in `firmware-mcu/src/main.c`:
`g_parse_state`, the accumulation buffer `g_cmd_buf[0..g_cmd_idx-1]`
(modelled as the list `buf`), and `g_cmd_payload_len` (`plen`).
`CMD_BUF_SIZE` is 600, so the length guard is `plen > 595`. -/

inductive ParseState
  | idle
  | cmd
  | lenLo
  | lenHi
  | data
  | checksum
deriving DecidableEq, Repr

structure Decoder where
  state : ParseState
  buf : List Nat
  plen : Nat
deriving DecidableEq, Repr

def Decoder.init : Decoder := ⟨ParseState.idle, [], 0⟩

def CMD_BUF_SIZE : Nat := 600

/-- `parse_rx_byte`: feeds one byte to the decoder; returns the new
decoder state and, when a packet just completed, the full accumulated
buffer that the C code hands to `handle_complete_packet`.  In the idle
state any byte other than 0xAA is silently discarded; an announced
payload length above `CMD_BUF_SIZE - 5` silently resets the parser. -/
def parse_rx_byte (p : Decoder) (b : Nat) : Decoder × Option (List Nat) :=
  match p.state with
  | ParseState.idle =>
      if b = DMX_MAGIC_CMD then (⟨ParseState.cmd, [b], p.plen⟩, none)
      else (p, none)
  | ParseState.cmd => (⟨ParseState.lenLo, p.buf ++ [b], p.plen⟩, none)
  | ParseState.lenLo => (⟨ParseState.lenHi, p.buf ++ [b], b⟩, none)
  | ParseState.lenHi =>
      let len := p.plen + b * 256
      if CMD_BUF_SIZE - 5 < len then (⟨ParseState.idle, p.buf ++ [b], len⟩, none)
      else if len = 0 then (⟨ParseState.checksum, p.buf ++ [b], len⟩, none)
      else (⟨ParseState.data, p.buf ++ [b], len⟩, none)
  | ParseState.data =>
      let buf2 := p.buf ++ [b]
      if 4 + p.plen ≤ buf2.length then (⟨ParseState.checksum, buf2, p.plen⟩, none)
      else (⟨ParseState.data, buf2, p.plen⟩, none)
  | ParseState.checksum =>
      (⟨ParseState.idle, p.buf ++ [b], p.plen⟩, some (p.buf ++ [b]))

/-- Run the decoder over a byte list, collecting the completed packet
buffers in order. -/
def parseRun (p : Decoder) : List Nat → Decoder × List (List Nat)
  | [] => (p, [])
  | b :: bs =>
    let r := parse_rx_byte p b
    let rest := parseRun r.1 bs
    match r.2 with
    | none => rest
    | some pkt => (rest.1, pkt :: rest.2)

/-! Field extraction from a completed packet buffer, exactly as
`handle_complete_packet` reads it: `buf[0]` magic, `buf[1]` cmd,
`buf[2] | buf[3] << 8` payload length, `&buf[4]` payload. -/

def pktMagic (p : List Nat) : Nat := p.getD 0 0
def pktCmd (p : List Nat) : Nat := p.getD 1 0
def pktLen (p : List Nat) : Nat := p.getD 2 0 + p.getD 3 0 * 256
def pktPayload (p : List Nat) : List Nat := (p.drop 4).take (pktLen p)

/-! ### DMX timing parameters and `dmx_set_timing` (both variants)

Both variants validate and commit field by field, in the order
refresh_hz, break_us, mab_us, with `return -1` as soon as one non-zero
field is out of range; fields already validated at that point have
already been committed to the globals.  The AP variant
(`firmware-ap/dmx_driver.c`) uses the header constants
`DMX_REFRESH_HZ_MIN/MAX = 1/44`, `DMX_BREAK_US_MIN/MAX = 88/1000`,
`DMX_MAB_US_MIN/MAX = 8/100`; the MCU variant hard-codes
`88..1000` for break and `8..1000` for mab. -/

structure Timing where
  refreshHz : Nat
  breakUs : Nat
  mabUs : Nat
deriving DecidableEq, Repr

/-- The default timing triple set at init on both variants. -/
def Timing.default : Timing := ⟨44, 150, 12⟩

def DMX_REFRESH_HZ_MIN : Nat := 1
def DMX_REFRESH_HZ_MAX : Nat := 44
def DMX_BREAK_US_MIN : Nat := 88
def DMX_BREAK_US_MAX : Nat := 1000
def DMX_MAB_US_MIN : Nat := 8
def DMX_MAB_US_MAX : Nat := 100

/-- `dmx_set_timing` of the AP (RT-Thread) variant.  Each early
`return -1` leaves the fields committed so far in place. -/
def ap_dmx_set_timing (t : Timing) (refresh_hz break_us mab_us : Nat) :
    Timing × Int :=
  if refresh_hz ≠ 0 ∧
      (refresh_hz < DMX_REFRESH_HZ_MIN ∨ DMX_REFRESH_HZ_MAX < refresh_hz) then
    (t, -1)
  else
    let t1 := if refresh_hz ≠ 0 then { t with refreshHz := refresh_hz } else t
    if break_us ≠ 0 ∧ (break_us < DMX_BREAK_US_MIN ∨ DMX_BREAK_US_MAX < break_us) then
      (t1, -1)
    else
      let t2 := if break_us ≠ 0 then { t1 with breakUs := break_us } else t1
      if mab_us ≠ 0 ∧ (mab_us < DMX_MAB_US_MIN ∨ DMX_MAB_US_MAX < mab_us) then
        (t2, -1)
      else
        (if mab_us ≠ 0 then { t2 with mabUs := mab_us } else t2, 0)

/-- `dmx_set_timing` of the MCU (bare-metal) variant.  The refresh
check is `> 44` only, the break check is `< 88 || > 1000`, and the mab
check is `< 8 || > 1000` (not 100). -/
def mcu_dmx_set_timing (t : Timing) (refresh_hz break_us mab_us : Nat) :
    Timing × Int :=
  if refresh_hz ≠ 0 ∧ 44 < refresh_hz then
    (t, -1)
  else
    let t1 := if refresh_hz ≠ 0 then { t with refreshHz := refresh_hz } else t
    if break_us ≠ 0 ∧ (break_us < 88 ∨ 1000 < break_us) then
      (t1, -1)
    else
      let t2 := if break_us ≠ 0 then { t1 with breakUs := break_us } else t1
      if mab_us ≠ 0 ∧ (mab_us < 8 ∨ 1000 < mab_us) then
        (t2, -1)
      else
        (if mab_us ≠ 0 then { t2 with mabUs := mab_us } else t2, 0)

/-! ### Channel buffers (`dmx_set_channels`, `dmx_blackout`)

`DMX_UNIVERSE_SIZE = 512`, `DMX_FRAME_SIZE = 513`.  The AP variant
keeps a bare 512-entry `channels[]` array (the 0x00 start code is
prepended by the TX thread); the MCU variant keeps the full 513-byte
frame with the start code at index 0 and channel k at index k+1. -/

def DMX_UNIVERSE_SIZE : Nat := 512
def DMX_FRAME_SIZE : Nat := 513

/-- `dmx_set_channels` of the AP variant, acting on the 512-entry
`g_dmx.channels` array: the only guard is `start + count > 512`; on
success `rt_memcpy` writes `values` at indices `start..`. -/
def ap_dmx_set_channels (channels : List Nat) (start : Nat)
    (values : List Nat) : List Nat × Int :=
  if DMX_UNIVERSE_SIZE < start + values.length then (channels, -1)
  else
    (channels.take start ++ values ++ channels.drop (start + values.length), 0)

/-- `dmx_set_channels` of the MCU variant, acting on the 513-byte
`g_dmx_frame`: rejects `start_channel >= 512`, then
`start_channel + count > 512`, then `values == NULL || count == 0`
(the NULL case has no counterpart for a Lean list); on success writes
`values` at frame indices `start+1..start+count`. -/
def mcu_dmx_set_channels (frame : List Nat) (start_channel : Nat)
    (values : List Nat) : List Nat × Int :=
  if DMX_UNIVERSE_SIZE ≤ start_channel then (frame, -1)
  else if DMX_UNIVERSE_SIZE < start_channel + values.length then (frame, -1)
  else if values = [] then (frame, -1)
  else
    (frame.take (start_channel + 1) ++ values ++
      frame.drop (start_channel + 1 + values.length), 0)

/-- `dmx_blackout` of the MCU variant: zeroes frame bytes 1..512 and
leaves byte 0 (the start code) untouched. -/
def mcu_dmx_blackout (frame : List Nat) : List Nat :=
  frame.take 1 ++ List.replicate DMX_UNIVERSE_SIZE 0

/-- `dmx_blackout` of the AP variant: `rt_memset` of the 512-entry
channels array. -/
def ap_dmx_blackout (_channels : List Nat) : List Nat :=
  List.replicate DMX_UNIVERSE_SIZE 0

/-- The frame right after `dmx_init` on the MCU: 513 zero bytes. -/
def mcuInitFrame : List Nat := List.replicate DMX_FRAME_SIZE 0

/-- The 513-octet transmit buffer built each cycle by
`dmx_tx_thread_entry` on the AP variant: `frame_buf[0] = 0x00`
followed by a copy of the channels array. -/
def ap_tx_frame (channels : List Nat) : List Nat := 0 :: channels

/-! ### LCR writes of the BREAK/MAB paths

Both functions below list, in order, the values written to the UART
line-control register by one invocation of the BREAK/MAB routine, as a
function of the LCR value readable at entry (`lcr0`).

The AP variant (`uart_send_break_mab`) never reads LCR: it writes the
absolute constants `UART_LCR_8N2 | UART_LCR_BREAK` and `UART_LCR_8N2`.
The data-push path `uart_tx_poll` likewise opens with an absolute
`LCR = UART_LCR_8N2` write.

The MCU variant (`send_break_mab`) starts with `lcr = pUart->LCR` and
then writes `lcr | UART_LCR_BREAK` followed by `lcr`: a
read-modify-write pair. -/

def UART_LCR_BREAK : Nat := 64
def UART_LCR_8N2 : Nat := 0x07

/-- LCR writes performed by `uart_send_break_mab` (AP variant); the
entry LCR value is ignored by the code. -/
def ap_uart_send_break_mab_lcr_writes (_lcr0 : Nat) : List Nat :=
  [UART_LCR_8N2 ||| UART_LCR_BREAK, UART_LCR_8N2]

/-- LCR write performed at the top of `uart_tx_poll` (AP variant),
which runs right after the MAB; absolute as well. -/
def ap_uart_tx_poll_lcr_writes (_lcr0 : Nat) : List Nat :=
  [UART_LCR_8N2]

/-- LCR writes performed by `send_break_mab` (MCU variant): derived
from the value read from LCR at entry. -/
def mcu_send_break_mab_lcr_writes (lcr0 : Nat) : List Nat :=
  [lcr0 ||| UART_LCR_BREAK, lcr0]

/-! ### The MCU DMX driver state and the command dispatcher

`firmware-mcu/src/main.c` plus the MCU `dmx_driver.c`.  The driver
globals relevant to command handling: the 513-byte frame, the enabled
flag, the frame counter and the timing triple.  (The TX state machine
`dmx_poll` only reads the frame; it is not needed for the dispatcher
claims.) -/

structure McuDriver where
  frame : List Nat
  enabled : Bool
  frameCount : Nat
  timing : Timing
deriving DecidableEq, Repr

/-- Driver state after `dmx_init` (and after firmware start, which
also initialises the timing globals to the defaults). -/
def McuDriver.init : McuDriver :=
  ⟨mcuInitFrame, false, 0, Timing.default⟩

/-- `dmx_enable` (MCU): idempotent; on the disabled-to-enabled edge it
resets the frame counter. -/
def mcu_dmx_enable (d : McuDriver) : McuDriver :=
  if d.enabled then d else { d with enabled := true, frameCount := 0 }

/-- `dmx_disable` (MCU): idempotent. -/
def mcu_dmx_disable (d : McuDriver) : McuDriver :=
  { d with enabled := false }

/-- `handle_cmd_set_channels`: payloads shorter than 3 bytes get
STATUS_INVALID_LENGTH; otherwise the first two bytes are the
little-endian start channel and the rest are the values; a driver
rejection maps to STATUS_ERROR. -/
def handle_cmd_set_channels (d : McuDriver) (payload : List Nat) :
    McuDriver × (Nat × List Nat) :=
  if payload.length < 3 then (d, (STATUS_INVALID_LENGTH, []))
  else
    let start := payload.getD 0 0 + payload.getD 1 0 * 256
    let values := payload.drop 2
    let r := mcu_dmx_set_channels d.frame start values
    if r.2 < 0 then (d, (STATUS_ERROR, []))
    else ({ d with frame := r.1 }, (STATUS_OK, []))

/-- `handle_cmd_get_status`: responds OK with
`[enabled, frame_count:u32 LE, fps:u32 LE]` where the MCU reports
`fps = refresh_hz * 100`. -/
def handle_cmd_get_status (d : McuDriver) : McuDriver × (Nat × List Nat) :=
  (d, (STATUS_OK,
    [if d.enabled then 1 else 0] ++ le32 d.frameCount ++
      le32 (d.timing.refreshHz * 100)))

/-- `handle_cmd_set_timing`: the payload must be exactly the 6-byte
packed `dmx_timing_t`; a driver rejection maps to STATUS_ERROR. -/
def handle_cmd_set_timing (d : McuDriver) (payload : List Nat) :
    McuDriver × (Nat × List Nat) :=
  if payload.length ≠ 6 then (d, (STATUS_INVALID_LENGTH, []))
  else
    let hz := payload.getD 0 0 + payload.getD 1 0 * 256
    let bk := payload.getD 2 0 + payload.getD 3 0 * 256
    let mab := payload.getD 4 0 + payload.getD 5 0 * 256
    let r := mcu_dmx_set_timing d.timing hz bk mab
    if r.2 < 0 then ({ d with timing := r.1 }, (STATUS_ERROR, []))
    else ({ d with timing := r.1 }, (STATUS_OK, []))

/-- `handle_cmd_get_timing`: responds OK with the three packed
little-endian u16 fields. -/
def handle_cmd_get_timing (d : McuDriver) : McuDriver × (Nat × List Nat) :=
  (d, (STATUS_OK,
    le16 d.timing.refreshHz ++ le16 d.timing.breakUs ++ le16 d.timing.mabUs))

/-- `handle_cmd_system_reset`: 4-byte little-endian magic guard; on a
match the MCU acknowledges OK, disables DMX and performs an NVIC reset
(after which the firmware restarts with freshly initialised globals,
modelled as `McuDriver.init`). -/
def handle_cmd_system_reset (d : McuDriver) (payload : List Nat) :
    McuDriver × (Nat × List Nat) :=
  if payload.length ≠ 4 then (d, (STATUS_INVALID_LENGTH, []))
  else
    let magic := payload.getD 0 0 + payload.getD 1 0 * 256 +
      payload.getD 2 0 * 65536 + payload.getD 3 0 * 16777216
    if magic ≠ SYSTEM_RESET_MAGIC then (d, (STATUS_ERROR, []))
    else (McuDriver.init, (STATUS_OK, []))

/-- `handle_complete_packet`: magic check first, then checksum, then
dispatch on the command id.  Returns the new driver state and the
single `(status, payload)` response that `send_response` emits. -/
def handle_complete_packet (d : McuDriver) (pkt : List Nat) :
    McuDriver × (Nat × List Nat) :=
  if pkt.getD 0 0 ≠ DMX_MAGIC_CMD then (d, (STATUS_INVALID_MAGIC, []))
  else if ¬ dmx_verify_checksum pkt then (d, (STATUS_INVALID_CHECKSUM, []))
  else
    let cmd := pktCmd pkt
    let payload := pktPayload pkt
    if cmd = CMD_DMX_SET_CHANNELS then handle_cmd_set_channels d payload
    else if cmd = CMD_DMX_GET_STATUS then handle_cmd_get_status d
    else if cmd = CMD_DMX_ENABLE then (mcu_dmx_enable d, (STATUS_OK, []))
    else if cmd = CMD_DMX_DISABLE then (mcu_dmx_disable d, (STATUS_OK, []))
    else if cmd = CMD_DMX_BLACKOUT then
      ({ d with frame := mcu_dmx_blackout d.frame }, (STATUS_OK, []))
    else if cmd = CMD_DMX_SET_TIMING then handle_cmd_set_timing d payload
    else if cmd = CMD_DMX_GET_TIMING then handle_cmd_get_timing d
    else if cmd = CMD_SYSTEM_RESET then handle_cmd_system_reset d payload
    else (d, (STATUS_INVALID_CMD, []))

/-- The whole per-byte pipeline of the MCU main loop: the decoder plus
the driver state it drives. -/
structure McuSys where
  dec : Decoder
  drv : McuDriver
deriving DecidableEq, Repr

def McuSys.init : McuSys := ⟨Decoder.init, McuDriver.init⟩

/-- One byte through `parse_rx_byte`; a completed packet goes through
`handle_complete_packet` and yields exactly one response. -/
def mcuStep (s : McuSys) (b : Nat) : McuSys × List (Nat × List Nat) :=
  let r := parse_rx_byte s.dec b
  match r.2 with
  | none => (⟨r.1, s.drv⟩, [])
  | some pkt =>
    let h := handle_complete_packet s.drv pkt
    (⟨r.1, h.1⟩, [h.2])

/-- Feed a byte sequence to the MCU pipeline, collecting the emitted
`(status, payload)` responses in order. -/
def mcuRun (s : McuSys) : List Nat → McuSys × List (Nat × List Nat)
  | [] => (s, [])
  | b :: bs =>
    let st := mcuStep s b
    let rest := mcuRun st.1 bs
    (rest.1, st.2 ++ rest.2)

/-! ### The Linux DMX state coordinator (`state.go`) and client (`client.go`)

The coordinator's mirror is the 512-entry channels array plus the
enabled flag (the pre-allocated per-light value maps are in-place
views of the same channel values and change exactly when the
corresponding channel entry changes).  The downstream `dmx_client`
subprocess call is modelled by its outcome `clientOk`; each public
mutation returns the new mirror, whether `broadcastState` ran, and
whether an error was returned to the caller. -/

structure GwState where
  channels : List Nat
  enabled : Bool
deriving DecidableEq, Repr

def GwState.init : GwState := ⟨List.replicate 512 0, false⟩

structure GwResult where
  st : GwState
  broadcast : Bool
  err : Bool
deriving DecidableEq, Repr

/-- `State.Enable`: client call first; on failure return the error
with no mirror change and no broadcast; on success set the flag, then
broadcast. -/
def GwState.Enable (clientOk : Bool) (s : GwState) : GwResult :=
  if clientOk then ⟨{ s with enabled := true }, true, false⟩
  else ⟨s, false, true⟩

/-- `State.Disable`: same shape as Enable. -/
def GwState.Disable (clientOk : Bool) (s : GwState) : GwResult :=
  if clientOk then ⟨{ s with enabled := false }, true, false⟩
  else ⟨s, false, true⟩

/-- `State.Blackout`: client call first; on success zero all channels
(and every per-light value), then broadcast. -/
def GwState.Blackout (clientOk : Bool) (s : GwState) : GwResult :=
  if clientOk then ⟨{ s with channels := List.replicate 512 0 }, true, false⟩
  else ⟨s, false, true⟩

/-- `State.SetChannel`: channels outside 1..512 are silent no-ops
(no client call, no broadcast, nil error).  Otherwise the mirror entry
`channels[channel-1]` (and the per-light views) is updated FIRST,
under the lock; the client call runs after the unlock, and on failure
the error is returned without broadcasting — the already-committed
mirror update stays in place. -/
def GwState.SetChannel (clientOk : Bool) (s : GwState) (channel : Nat)
    (value : Nat) : GwResult :=
  if channel < 1 ∨ 512 < channel then ⟨s, false, false⟩
  else
    let ch2 := s.channels.take (channel - 1) ++ [value] ++ s.channels.drop channel
    let s2 := { s with channels := ch2 }
    if clientOk then ⟨s2, true, false⟩
    else ⟨s2, false, true⟩

/-- Helper for `State.SetLight`: for each of the light's channels, in
order, if its name appears in the values map, write the value at
mirror index `ch - 1`. -/
def setLightChannels (channels : List Nat) (chans : List (String × Nat))
    (values : List (String × Nat)) : List Nat :=
  chans.foldl
    (fun acc nc =>
      match values.lookup nc.1 with
      | some v => acc.take (nc.2 - 1) ++ [v] ++ acc.drop nc.2
      | none => acc)
    channels

/-- `State.SetLight`: an unknown light is a silent no-op.  For a known
light (given here as its list of (channel-name, dmx-slot) bindings)
the mirror is updated first; the per-channel client calls run
afterwards and their failures are only logged (the `clientOk` outcome
is discarded, hence the unused argument), so the method always
broadcasts and always returns nil. -/
def GwState.SetLight (_clientOk : Bool) (s : GwState)
    (light : Option (List (String × Nat))) (values : List (String × Nat)) :
    GwResult :=
  match light with
  | none => ⟨s, false, false⟩
  | some chans => ⟨{ s with channels := setLightChannels s.channels chans values }, true, false⟩

/-! ### Timing model of the subprocess invoker (`client.go`)

`Client.exec` takes the client mutex, starts the subprocess and waits
for it (bounded by `timeout_ms`); it contains no delay or pacing of
any kind, and nothing on the `State.SetChannel → Client.SetChannel →
Client.exec` path reads `State.throttle` (the field is initialised in
`NewState` and never read anywhere in the gateway).  So the completion
time of one invocation started at `now` is just `now` plus the
subprocess duration, and back-to-back invocations are separated only
by the subprocess durations themselves. -/

def clientExecFinish (now subprocDur : Nat) : Nat := now + subprocDur

/-- Completion time of a sequence of back-to-back `Client.exec`
invocations (each started as soon as the previous one released the
mutex), given the individual subprocess durations. -/
def backToBackFinish (t0 : Nat) : List Nat → Nat
  | [] => t0
  | d :: ds => backToBackFinish (clientExecFinish t0 d) ds

/-! ### Operation sequences over the MCU frame (for the start-code
invariant) -/

/-- The channel-mutating operations the MCU dispatcher can apply to
the frame buffer. -/
inductive McuFrameOp
  | setChannels (start : Nat) (values : List Nat)
  | blackout

/-- Apply one operation to the frame (a rejected `set_channels` leaves
the frame untouched, as in the C driver). -/
def applyMcuFrameOp (frame : List Nat) : McuFrameOp → List Nat
  | McuFrameOp.setChannels s vs => (mcu_dmx_set_channels frame s vs).1
  | McuFrameOp.blackout => mcu_dmx_blackout frame

/-- Invariant of the MCU frame buffer: 513 bytes with the start code
(byte 0) equal to 0x00. -/
def McuFrameOk (frame : List Nat) : Prop :=
  frame.length = DMX_FRAME_SIZE ∧ frame.getD 0 0 = 0

/-- Invariant of the byte decoder: outside the idle state the
accumulation buffer starts with the command magic (the idle state only
ever latches an 0xAA byte into `buf[0]`). -/
def Decoder.headOk (p : Decoder) : Prop :=
  p.state ≠ ParseState.idle → p.buf.head? = some DMX_MAGIC_CMD

/-! ## Theorems -/

/-! ### Claim C1 — LCR writes around BREAK -/

/-- Claim C1, counterexample: the MCU variant's `send_break_mab`
derives both of its LCR writes from the value read from LCR at entry,
so its write sequence is not an absolute constant: two different entry
values of LCR give two different write sequences.  This refutes the
claim that EVERY frame-engine variant performs only absolute LCR
writes in the BREAK/MAB path. -/
theorem c1_mcu_lcr_rmw_counterexample :
    mcu_send_break_mab_lcr_writes 0 ≠ mcu_send_break_mab_lcr_writes 7 := by
  decide

/-- Claim C1 (amended): on the AP (RT-Thread) variant every LCR write
during and around BREAK stores the absolute 8N2 constant (with or
without the BREAK bit) and is independent of the LCR value read at
entry; the MCU variant instead performs a read-modify-write pair,
writing `lcr | BREAK` and then `lcr` for the entry value `lcr`. -/
theorem c1_lcr_writes_amended :
    (∀ l1 l2 : Nat,
       ap_uart_send_break_mab_lcr_writes l1 = ap_uart_send_break_mab_lcr_writes l2) ∧
    (∀ l1 l2 : Nat,
       ap_uart_tx_poll_lcr_writes l1 = ap_uart_tx_poll_lcr_writes l2) ∧
    (∀ l : Nat, ap_uart_send_break_mab_lcr_writes l =
       [UART_LCR_8N2 ||| UART_LCR_BREAK, UART_LCR_8N2]) ∧
    (∀ l : Nat, mcu_send_break_mab_lcr_writes l = [l ||| UART_LCR_BREAK, l]) ∧
    (∃ l1 l2 : Nat,
       mcu_send_break_mab_lcr_writes l1 ≠ mcu_send_break_mab_lcr_writes l2) :=
  ⟨fun _ _ => rfl, fun _ _ => rfl, fun _ => rfl, fun _ => rfl,
    ⟨0, 7, by decide⟩⟩

/-! ### Claim C3 — the `throttle_ms` inter-command interval -/

/-- Claim C3 (code bug): nothing on the outbound subprocess path waits
on `throttle_ms` — `State.throttle` is initialised in `NewState` and
never read, and `Client.exec` only takes the client mutex and runs the
subprocess.  Hence the completion time of back-to-back invocations is
the start time plus the bare subprocess durations, and in particular
ten back-to-back calls whose subprocess returns instantly finish after
0 ms, not the ≥ 225 ms the claim requires with `throttle_ms = 25`. -/
theorem c3_no_throttle_wait :
    (∀ (t0 : Nat) (ds : List Nat), backToBackFinish t0 ds = t0 + ds.sum) ∧
    backToBackFinish 0 (List.replicate 10 0) = 0 ∧ (0 : Nat) < 225 := by
  refine ⟨?_, by decide, by decide⟩
  intro t0 ds
  induction ds generalizing t0 with
  | nil => simp [backToBackFinish]
  | cons d ds ih =>
    simp only [backToBackFinish, clientExecFinish, List.sum_cons, ih]
    omega

/-! ### Claim C5 — set_timing failure leaves state unchanged -/

/-- Claim C5, counterexample: `dmx_set_timing(30, 5000, 0)` from the
default timing fails (break 5000 µs is out of range) yet commits the
valid refresh field validated before it: the stored triple changes
from (44, 150, 12) to (30, 150, 12) even though the call returns the
error. -/
theorem c5_partial_commit_counterexample :
    (ap_dmx_set_timing Timing.default 30 5000 0).2 = -1 ∧
    (ap_dmx_set_timing Timing.default 30 5000 0).1 ≠ Timing.default ∧
    (ap_dmx_set_timing Timing.default 30 5000 0).1.refreshHz = 30 ∧
    (mcu_dmx_set_timing Timing.default 30 5000 0).2 = -1 ∧
    (mcu_dmx_set_timing Timing.default 30 5000 0).1.refreshHz = 30 := by
  decide

/-- Claim C5 (amended): both variants validate and commit field by
field, in the order refresh, break, mab.  When a call fails, `mab_us`
is always unchanged (it is validated last), and the earlier fields are
unchanged unless they were passed as non-zero, in-range values, in
which case the new value has already been committed despite the
error. -/
theorem c5_set_timing_failure_effects :
    ∀ (t : Timing) (hz bk mab : Nat),
      ((ap_dmx_set_timing t hz bk mab).2 = -1 →
        ((ap_dmx_set_timing t hz bk mab).1.mabUs = t.mabUs ∧
         ((ap_dmx_set_timing t hz bk mab).1.breakUs = t.breakUs ∨
           (88 ≤ bk ∧ bk ≤ 1000 ∧ (ap_dmx_set_timing t hz bk mab).1.breakUs = bk)) ∧
         ((ap_dmx_set_timing t hz bk mab).1.refreshHz = t.refreshHz ∨
           (1 ≤ hz ∧ hz ≤ 44 ∧ (ap_dmx_set_timing t hz bk mab).1.refreshHz = hz)))) ∧
      ((mcu_dmx_set_timing t hz bk mab).2 = -1 →
        ((mcu_dmx_set_timing t hz bk mab).1.mabUs = t.mabUs ∧
         ((mcu_dmx_set_timing t hz bk mab).1.breakUs = t.breakUs ∨
           (88 ≤ bk ∧ bk ≤ 1000 ∧ (mcu_dmx_set_timing t hz bk mab).1.breakUs = bk)) ∧
         ((mcu_dmx_set_timing t hz bk mab).1.refreshHz = t.refreshHz ∨
           (1 ≤ hz ∧ hz ≤ 44 ∧ (mcu_dmx_set_timing t hz bk mab).1.refreshHz = hz)))) := by
  intro t hz bk mab
  unfold ap_dmx_set_timing mcu_dmx_set_timing
  unfold DMX_REFRESH_HZ_MIN DMX_REFRESH_HZ_MAX DMX_BREAK_US_MIN
    DMX_BREAK_US_MAX DMX_MAB_US_MIN DMX_MAB_US_MAX
  split_ifs <;> simp_all <;> omega

/-- Claim C5, witness: the amended theorem applied to the
counterexample input (default timing, hz 30, break 5000, mab 0). -/
theorem c5_set_timing_failure_effects_witness :
    ((ap_dmx_set_timing Timing.default 30 5000 0).1.mabUs = Timing.default.mabUs ∧
     ((ap_dmx_set_timing Timing.default 30 5000 0).1.breakUs = Timing.default.breakUs ∨
       (88 ≤ 5000 ∧ 5000 ≤ 1000 ∧
         (ap_dmx_set_timing Timing.default 30 5000 0).1.breakUs = 5000)) ∧
     ((ap_dmx_set_timing Timing.default 30 5000 0).1.refreshHz = Timing.default.refreshHz ∨
       (1 ≤ 30 ∧ 30 ≤ 44 ∧
         (ap_dmx_set_timing Timing.default 30 5000 0).1.refreshHz = 30))) :=
  (c5_set_timing_failure_effects Timing.default 30 5000 0).1 (by decide)

/-! ### Claim C6 — set_timing validation ranges -/

/-- Claim C6, counterexample: on the MCU variant a non-zero
`mab_us = 200 > 100` is ACCEPTED — the call succeeds and stores 200 —
whereas the claim says every such call is rejected on both
variants. -/
theorem c6_mcu_mab_range_counterexample :
    (mcu_dmx_set_timing Timing.default 0 0 200).2 = 0 ∧
    (mcu_dmx_set_timing Timing.default 0 0 200).1.mabUs = 200 := by
  decide

/-- Claim C6 (amended): zero fields mean "unchanged" on both variants
and a call succeeds exactly when every non-zero field is in range; the
ranges are refresh_hz ∈ [1, 44] and break_µs ∈ [88, 1000] on both
variants, but mab_µs ∈ [8, 100] only on the AP variant — the MCU
variant accepts mab_µs ∈ [8, 1000]. -/
theorem c6_set_timing_ranges :
    ∀ (t : Timing) (hz bk mab : Nat),
      ((ap_dmx_set_timing t hz bk mab).2 = 0 ↔
        ((hz = 0 ∨ (1 ≤ hz ∧ hz ≤ 44)) ∧
         (bk = 0 ∨ (88 ≤ bk ∧ bk ≤ 1000)) ∧
         (mab = 0 ∨ (8 ≤ mab ∧ mab ≤ 100)))) ∧
      ((mcu_dmx_set_timing t hz bk mab).2 = 0 ↔
        ((hz = 0 ∨ (1 ≤ hz ∧ hz ≤ 44)) ∧
         (bk = 0 ∨ (88 ≤ bk ∧ bk ≤ 1000)) ∧
         (mab = 0 ∨ (8 ≤ mab ∧ mab ≤ 1000)))) := by
  intro t hz bk mab
  unfold ap_dmx_set_timing mcu_dmx_set_timing
  unfold DMX_REFRESH_HZ_MIN DMX_REFRESH_HZ_MAX DMX_BREAK_US_MIN
    DMX_BREAK_US_MAX DMX_MAB_US_MIN DMX_MAB_US_MAX
  split_ifs <;> simp_all <;> omega

/-! ### Claim C4 — mirror commit and broadcast ordering -/

/-- Claim C4, counterexample: `State.SetChannel` updates the mirror
BEFORE the downstream client call, so when the client call fails the
mirror is NOT left unchanged: from the initial mirror,
`SetChannel(1, 255)` with a failing client returns the error, sends no
broadcast, yet leaves channel 1's mirror entry at 255. -/
theorem c4_mirror_on_failure_counterexample :
    (GwState.SetChannel false GwState.init 1 255).err = true ∧
    (GwState.SetChannel false GwState.init 1 255).broadcast = false ∧
    (GwState.SetChannel false GwState.init 1 255).st ≠ GwState.init ∧
    (GwState.SetChannel false GwState.init 1 255).st.channels.getD 0 0 = 255 := by
  decide

/-- Claim C4 (amended): `enable`, `disable` and `blackout` call the
client first and, on failure, leave the mirror unchanged and send no
broadcast; `set_channel`, however, commits the mirror entry BEFORE the
client call — on failure it sends no broadcast and surfaces the error,
but the mirror keeps the new value; and `set_light` (for a known
light) also commits the mirror first and then ALWAYS broadcasts and
returns nil, regardless of per-channel client failures, which are only
logged. -/
theorem c4_mutation_ordering :
    ∀ (s : GwState),
      (GwState.Enable false s = ⟨s, false, true⟩ ∧
       GwState.Disable false s = ⟨s, false, true⟩ ∧
       GwState.Blackout false s = ⟨s, false, true⟩) ∧
      ((GwState.Enable true s).st.enabled = true ∧
       (GwState.Enable true s).broadcast = true) ∧
      (∀ channel value, 1 ≤ channel → channel ≤ 512 →
        ((GwState.SetChannel false s channel value).broadcast = false ∧
         (GwState.SetChannel false s channel value).err = true ∧
         (GwState.SetChannel false s channel value).st.channels =
           s.channels.take (channel - 1) ++ [value] ++ s.channels.drop channel)) ∧
      (∀ (ok : Bool) (chans values : List (String × Nat)),
        (GwState.SetLight ok s (some chans) values).broadcast = true ∧
        (GwState.SetLight ok s (some chans) values).err = false ∧
        (GwState.SetLight ok s (some chans) values).st.channels =
          setLightChannels s.channels chans values) := by
  intro s
  refine ⟨⟨rfl, rfl, rfl⟩, ⟨rfl, rfl⟩, ?_, ?_⟩
  · intro channel value h1 h2
    simp only [GwState.SetChannel]
    rw [if_neg (by omega)]
    simp
  · intro ok chans values
    simp [GwState.SetLight]

/-- Claim C4, witness: the amended theorem applied at the initial
mirror, channel 1, value 255. -/
theorem c4_mutation_ordering_witness :
    (GwState.SetChannel false GwState.init 1 255).broadcast = false ∧
    (GwState.SetChannel false GwState.init 1 255).err = true ∧
    (GwState.SetChannel false GwState.init 1 255).st.channels =
      GwState.init.channels.take 0 ++ [255] ++ GwState.init.channels.drop 1 :=
  (c4_mutation_ordering GwState.init).2.2.1 1 255 (by decide) (by decide)

/-! ### Claim C8 — the S1 enable / set-channel scenario -/

/-- Claim C8, counterexample: the first packet `AA 03 00 00 A9` is
answered `BB 00 00 00 BB` as claimed, but the second byte sequence
`AA 01 03 00 00 00 FF FD` carries a wrong checksum — the XOR of its
first seven bytes is 0x57, not 0xFD — so the dispatcher answers
`BB 02 00 00 B9` (STATUS_INVALID_CHECKSUM), not the claimed
`BB 00 00 00 BB`. -/
theorem c8_checksum_counterexample :
    ((mcuRun McuSys.init [0xAA, 0x03, 0x00, 0x00, 0xA9]).2.map respBytes =
      [[0xBB, 0x00, 0x00, 0x00, 0xBB]]) ∧
    ((mcuRun (mcuRun McuSys.init [0xAA, 0x03, 0x00, 0x00, 0xA9]).1
        [0xAA, 0x01, 0x03, 0x00, 0x00, 0x00, 0xFF, 0xFD]).2.map respBytes =
      [[0xBB, 0x02, 0x00, 0x00, 0xB9]]) ∧
    [[0xBB, 0x02, 0x00, 0x00, 0xB9]] ≠ [[(0xBB : Nat), 0x00, 0x00, 0x00, 0xBB]] := by
  decide

/-- Claim C8 (amended): `AA 03 00 00 A9` is answered `BB 00 00 00 BB`
(enable acknowledged, engine enabled); the correctly-checksummed
set-channels packet is `AA 01 03 00 00 00 FF 57` (XOR of the preceding
bytes is 0x57, not the 0xFD written in the spec), and it is answered
`BB 00 00 00 BB`, after which frame byte 1 (channel slot 1) carries
0xFF and all other slots carry 0x00; the `...FF FD` sequence of the
claim is instead rejected with the checksum-error response
`BB 02 00 00 B9` and leaves all channels at 0x00. -/
theorem c8_enable_set_channel_scenario :
    ((mcuRun McuSys.init [0xAA, 0x03, 0x00, 0x00, 0xA9]).2.map respBytes =
      [[0xBB, 0x00, 0x00, 0x00, 0xBB]]) ∧
    ((mcuRun McuSys.init [0xAA, 0x03, 0x00, 0x00, 0xA9]).1.drv.enabled = true) ∧
    ((mcuRun (mcuRun McuSys.init [0xAA, 0x03, 0x00, 0x00, 0xA9]).1
        [0xAA, 0x01, 0x03, 0x00, 0x00, 0x00, 0xFF, 0x57]).2.map respBytes =
      [[0xBB, 0x00, 0x00, 0x00, 0xBB]]) ∧
    ((mcuRun (mcuRun McuSys.init [0xAA, 0x03, 0x00, 0x00, 0xA9]).1
        [0xAA, 0x01, 0x03, 0x00, 0x00, 0x00, 0xFF, 0x57]).1.drv.frame =
      0 :: 0xFF :: List.replicate 511 0) ∧
    ((mcuRun (mcuRun McuSys.init [0xAA, 0x03, 0x00, 0x00, 0xA9]).1
        [0xAA, 0x01, 0x03, 0x00, 0x00, 0x00, 0xFF, 0xFD]).1.drv.frame =
      List.replicate 513 0) := by
  decide

/-! ### Claim C7 — set_channels range check and commit -/

/-- Element-level reading of the `memcpy`-style segment write used by
both `dmx_set_channels` implementations: position `i` holds the new
value when `start ≤ i < start + vs.length` and the old one
otherwise. -/
theorem writeSegment_getD (l vs : List Nat) (start i : Nat)
    (h : start + vs.length ≤ l.length) :
    (l.take start ++ vs ++ l.drop (start + vs.length)).getD i 0 =
      (if start ≤ i ∧ i < start + vs.length then vs.getD (i - start) 0
       else l.getD i 0) := by
  have hts : (l.take start).length = start := by
    rw [List.length_take]; omega
  simp only [List.getD_eq_getElem?_getD, List.append_assoc]
  rw [List.getElem?_append, hts, List.getElem?_take]
  by_cases h1 : i < start
  · rw [if_pos h1, if_pos h1, if_neg (by omega : ¬(start ≤ i ∧ i < start + vs.length))]
  · rw [if_neg h1, List.getElem?_append]
    by_cases h2 : i < start + vs.length
    · rw [if_pos (by omega : i - start < vs.length),
        if_pos (by omega : start ≤ i ∧ i < start + vs.length)]
    · rw [if_neg (by omega : ¬ i - start < vs.length),
        if_neg (by omega : ¬(start ≤ i ∧ i < start + vs.length)),
        List.getElem?_drop,
        (by omega : start + vs.length + (i - start - vs.length) = i)]

/-- Claim C7, counterexample: on the MCU variant, `dmx_set_channels`
with `count = 0` is REJECTED even though `start + count ≤ 512` — the
claim's "succeeds for every start_slot and count with
start_slot + count ≤ 512" fails there (the MCU code also rejects
`count == 0` and `start_channel >= 512`). -/
theorem c7_mcu_zero_count_counterexample :
    (0 : Nat) + 0 ≤ 512 ∧
    (mcu_dmx_set_channels mcuInitFrame 0 []).2 = -1 ∧
    (mcu_dmx_set_channels mcuInitFrame 0 []).1 = mcuInitFrame := by
  decide

/-- Claim C7 (amended): on the AP variant `set_channels` fails exactly
when `start + count > 512` and otherwise commits the values into
channel entries `start..start+count-1`, leaving all other entries
unchanged; the MCU variant succeeds exactly when additionally
`start < 512` and `count ≠ 0`, committing into frame bytes
`start+1..start+count` (its frame stores the start code at byte 0). -/
theorem c7_set_channels_characterisation :
    ∀ (channels frame values : List Nat) (start : Nat),
      channels.length = 512 → frame.length = 513 →
      ((((ap_dmx_set_channels channels start values).2 = 0) ↔
          start + values.length ≤ 512) ∧
       (∀ i, (ap_dmx_set_channels channels start values).2 = 0 →
          (ap_dmx_set_channels channels start values).1.getD i 0 =
            (if start ≤ i ∧ i < start + values.length then
               values.getD (i - start) 0
             else channels.getD i 0))) ∧
      ((((mcu_dmx_set_channels frame start values).2 = 0) ↔
          (start < 512 ∧ start + values.length ≤ 512 ∧ values ≠ [])) ∧
       (∀ i, (mcu_dmx_set_channels frame start values).2 = 0 →
          (mcu_dmx_set_channels frame start values).1.getD i 0 =
            (if start + 1 ≤ i ∧ i < start + 1 + values.length then
               values.getD (i - (start + 1)) 0
             else frame.getD i 0))) := by
  intro channels frame values start hcl hfl
  refine ⟨⟨?_, ?_⟩, ⟨?_, ?_⟩⟩
  · unfold ap_dmx_set_channels DMX_UNIVERSE_SIZE
    split_ifs with hg <;> simp_all
  · intro i hsucc
    unfold ap_dmx_set_channels DMX_UNIVERSE_SIZE at hsucc ⊢
    by_cases hg : 512 < start + values.length
    · rw [if_pos hg] at hsucc; simp at hsucc
    · rw [if_neg hg] at hsucc ⊢
      have hw := writeSegment_getD channels values start i (by omega)
      simpa using hw
  · unfold mcu_dmx_set_channels DMX_UNIVERSE_SIZE
    split_ifs with hg1 hg2 hg3 <;> simp_all
  · intro i hsucc
    unfold mcu_dmx_set_channels DMX_UNIVERSE_SIZE at hsucc ⊢
    by_cases hg1 : 512 ≤ start
    · rw [if_pos hg1] at hsucc; simp at hsucc
    · rw [if_neg hg1] at hsucc ⊢
      by_cases hg2 : 512 < start + values.length
      · rw [if_pos hg2] at hsucc; simp at hsucc
      · rw [if_neg hg2] at hsucc ⊢
        by_cases hg3 : values = []
        · rw [if_pos hg3] at hsucc; simp at hsucc
        · rw [if_neg hg3]
          have hb : start + 1 + values.length ≤ frame.length := by omega
          have hw := writeSegment_getD frame values (start + 1) i hb
          simpa using hw

/-- Claim C7, witness: the amended characterisation applied to the
512-zero channels array, the 513-zero frame, values `[7]`, start 0. -/
theorem c7_set_channels_characterisation_witness :
    (((ap_dmx_set_channels (List.replicate 512 0) 0 [7]).2 = 0) ↔
      (0 : Nat) + ([7] : List Nat).length ≤ 512) ∧
    (((mcu_dmx_set_channels mcuInitFrame 0 [7]).2 = 0) ↔
      ((0 : Nat) < 512 ∧ (0 : Nat) + ([7] : List Nat).length ≤ 512 ∧
        ([7] : List Nat) ≠ [])) :=
  ⟨(c7_set_channels_characterisation (List.replicate 512 0) mcuInitFrame [7] 0
      (by decide) (by decide)).1.1,
   (c7_set_channels_characterisation (List.replicate 512 0) mcuInitFrame [7] 0
      (by decide) (by decide)).2.1⟩

/-! ### Claim C9 — the start code stays 0x00 -/

/-- One frame operation preserves the MCU frame invariant: 513 bytes
with byte 0 (the start code) equal to 0.  A successful `set_channels`
only writes bytes `start+1..start+count` (all ≥ 1); `blackout` only
rewrites bytes 1..512. -/
theorem applyMcuFrameOp_preserves (frame : List Nat) (op : McuFrameOp)
    (h : McuFrameOk frame) : McuFrameOk (applyMcuFrameOp frame op) := by
  obtain ⟨hlen, hhead⟩ := h
  unfold McuFrameOk DMX_FRAME_SIZE at *
  cases op with
  | setChannels s vs =>
    simp only [applyMcuFrameOp, mcu_dmx_set_channels, DMX_UNIVERSE_SIZE]
    split_ifs with h1 h2 h3
    · exact ⟨hlen, hhead⟩
    · exact ⟨hlen, hhead⟩
    · exact ⟨hlen, hhead⟩
    · constructor
      · simp [List.length_take, List.length_drop, hlen]
        omega
      · have hw := writeSegment_getD frame vs (s + 1) 0 (by omega)
        rw [hw, if_neg (by omega)]
        exact hhead
  | blackout =>
    simp only [applyMcuFrameOp, mcu_dmx_blackout, DMX_UNIVERSE_SIZE]
    constructor
    · simp [List.length_take, hlen]
    · simp only [List.getD_eq_getElem?_getD, List.getElem?_append,
        List.length_take, List.getElem?_take]
      rw [if_pos (by omega), if_pos (by omega)]
      simpa [List.getD_eq_getElem?_getD] using hhead

/-- Claim C9 (confirmed): after init and any sequence of
`set_channels` / `blackout` operations, the MCU frame keeps its
513-byte shape and its byte 0 — the start code, the first octet that
`dmx_poll` pushes into the TX FIFO — equal to 0x00; and on the AP
variant the transmit buffer built by `dmx_tx_thread_entry` always
carries 0x00 as the first of its 513 octets. -/
theorem c9_start_code_invariant :
    (∀ ops : List McuFrameOp,
      (ops.foldl applyMcuFrameOp mcuInitFrame).getD 0 0 = 0 ∧
      (ops.foldl applyMcuFrameOp mcuInitFrame).length = 513) ∧
    (∀ channels : List Nat, (ap_tx_frame channels).getD 0 0 = 0) := by
  constructor
  · have hinv : ∀ (ops : List McuFrameOp) (frame : List Nat),
        McuFrameOk frame → McuFrameOk (ops.foldl applyMcuFrameOp frame) := by
      intro ops
      induction ops with
      | nil => intro frame h; exact h
      | cons op ops ih =>
        intro frame h
        exact ih (applyMcuFrameOp frame op) (applyMcuFrameOp_preserves frame op h)
    intro ops
    have h0 : McuFrameOk mcuInitFrame := by
      constructor <;> simp [mcuInitFrame, DMX_FRAME_SIZE]
    have h := hinv ops mcuInitFrame h0
    exact ⟨h.2, h.1⟩
  · intro channels
    simp [ap_tx_frame]

/-! ### Claim C2 — codec roundtrip -/

/-- Unfolding `parseRun` one byte at a time when the byte completes no
packet. -/
theorem parseRun_cons_none (p : Decoder) (b : Nat) (bs : List Nat)
    (q : Decoder) (h : parse_rx_byte p b = (q, none)) :
    parseRun p (b :: bs) = parseRun q bs := by
  simp [parseRun, h]

/-- Unfolding `parseRun` one byte at a time when the byte completes a
packet. -/
theorem parseRun_cons_some (p : Decoder) (b : Nat) (bs : List Nat)
    (q : Decoder) (pkt : List Nat) (h : parse_rx_byte p b = (q, some pkt)) :
    parseRun p (b :: bs) = ((parseRun q bs).1, pkt :: (parseRun q bs).2) := by
  simp [parseRun, h]

/-- `parseRun` splits over list append: the second half resumes from
the state the first half left. -/
theorem parseRun_append (p : Decoder) (xs ys : List Nat) :
    parseRun p (xs ++ ys) =
      ((parseRun (parseRun p xs).1 ys).1,
        (parseRun p xs).2 ++ (parseRun (parseRun p xs).1 ys).2) := by
  induction xs generalizing p with
  | nil => simp [parseRun]
  | cons b bs ih =>
    rcases hr : parse_rx_byte p b with ⟨q, opt⟩
    cases opt with
    | none =>
      rw [List.cons_append, parseRun_cons_none p b (bs ++ ys) q hr,
        parseRun_cons_none p b bs q hr, ih]
    | some pkt =>
      rw [List.cons_append, parseRun_cons_some p b (bs ++ ys) q pkt hr,
        parseRun_cons_some p b bs q pkt hr, ih]
      simp

/-- In the data state with an announced payload length `n` and a
buffer holding `4 ≤` bytes, a non-empty byte list that brings the
buffer to exactly `4 + n` bytes is consumed without completing a
packet and ends in the checksum state. -/
theorem parseRun_data_fill :
    ∀ (xs buf : List Nat) (n : Nat),
      buf.length + xs.length = 4 + n → xs ≠ [] →
      parseRun ⟨ParseState.data, buf, n⟩ xs =
        (⟨ParseState.checksum, buf ++ xs, n⟩, []) := by
  intro xs
  induction xs with
  | nil => intro buf n h hne; exact absurd rfl hne
  | cons b bs ih =>
    intro buf n h _
    cases bs with
    | nil =>
      have hstep : parse_rx_byte ⟨ParseState.data, buf, n⟩ b =
          (⟨ParseState.checksum, buf ++ [b], n⟩, none) := by
        simp only [parse_rx_byte]
        rw [if_pos (by simp at h ⊢; omega)]
      rw [parseRun_cons_none _ _ _ _ hstep]
      simp [parseRun]
    | cons c cs =>
      have hstep : parse_rx_byte ⟨ParseState.data, buf, n⟩ b =
          (⟨ParseState.data, buf ++ [b], n⟩, none) := by
        simp only [parse_rx_byte]
        rw [if_neg (by simp at h ⊢; omega)]
      rw [parseRun_cons_none _ _ _ _ hstep]
      rw [ih (buf ++ [b]) n (by simp at h ⊢; omega) (by simp)]
      simp

/-- Claim C2, counterexample: the second half of the claim — every
byte sequence either yields a validated packet from a prefix or is
rejected with a named error — is false: the single byte 0x00 is
silently discarded by the idle state (no completed packet, no error
response), and a well-formed packet whose announced payload length
(600) exceeds the parser's 595-byte buffer limit, while within the
codec's DMX_MAX_PAYLOAD = 1024, is silently dropped as well: no
completed packet and no response of any status. -/
theorem c2_silent_discard_counterexample :
    (parseRun Decoder.init [0x00]).2 = [] ∧
    (mcuRun McuSys.init [0x00]).2 = [] ∧
    (parseRun Decoder.init (build_cmd_packet 1 (List.replicate 600 0))).2 = [] ∧
    (mcuRun McuSys.init (build_cmd_packet 1 (List.replicate 600 0))).2 = [] := by
  decide

/-- Claim C2 (amended): for every command id and payload within the
MCU parser's buffer limit (length ≤ 595), feeding the bytes of
`build_cmd_packet` one at a time into the byte-by-byte decoder yields
exactly that packet back — the decoder completes exactly one packet,
equal to the encoded bytes, returns to the idle state, and the
completed buffer decodes to the same magic, cmd, length, payload and
a checksum that validates.  (Arbitrary byte sequences, however, may
also be silently discarded without a named error: non-0xAA bytes in
the idle state and over-limit announced lengths produce neither a
packet nor an error response.) -/
theorem c2_roundtrip_within_limit (cmd : Nat) (payload : List Nat)
    (h : payload.length ≤ 595) :
    parseRun Decoder.init (build_cmd_packet cmd payload) =
      (⟨ParseState.idle, build_cmd_packet cmd payload, payload.length⟩,
        [build_cmd_packet cmd payload]) ∧
    pktMagic (build_cmd_packet cmd payload) = DMX_MAGIC_CMD ∧
    pktCmd (build_cmd_packet cmd payload) = cmd ∧
    pktLen (build_cmd_packet cmd payload) = payload.length ∧
    pktPayload (build_cmd_packet cmd payload) = payload ∧
    dmx_verify_checksum (build_cmd_packet cmd payload) = true := by
  refine ⟨?_, ?_, ?_, ?_, ?_, ?_⟩
  · -- the run
    rcases Nat.eq_zero_or_pos payload.length with h0 | hpos
    · have hnil : payload = [] := List.eq_nil_of_length_eq_zero h0
      subst hnil
      simp [build_cmd_packet, parseRun, parse_rx_byte, Decoder.init,
        CMD_BUF_SIZE, DMX_MAGIC_CMD]
    · have hbytes : build_cmd_packet cmd payload =
          DMX_MAGIC_CMD :: cmd :: (payload.length % 256) ::
            (payload.length / 256 % 256) ::
            (payload ++
              [dmx_calc_checksum ([DMX_MAGIC_CMD, cmd, payload.length % 256,
                payload.length / 256 % 256] ++ payload)]) := by
        simp [build_cmd_packet]
      rw [hbytes]
      have e1 : parse_rx_byte Decoder.init DMX_MAGIC_CMD =
          (⟨ParseState.cmd, [DMX_MAGIC_CMD], 0⟩, none) := by
        simp [parse_rx_byte, Decoder.init]
      have e2 : parse_rx_byte ⟨ParseState.cmd, [DMX_MAGIC_CMD], 0⟩ cmd =
          (⟨ParseState.lenLo, [DMX_MAGIC_CMD, cmd], 0⟩, none) := by
        simp [parse_rx_byte]
      have e3 : parse_rx_byte ⟨ParseState.lenLo, [DMX_MAGIC_CMD, cmd], 0⟩
            (payload.length % 256) =
          (⟨ParseState.lenHi, [DMX_MAGIC_CMD, cmd, payload.length % 256],
            payload.length % 256⟩, none) := by
        simp [parse_rx_byte]
      have e4 : parse_rx_byte
            ⟨ParseState.lenHi, [DMX_MAGIC_CMD, cmd, payload.length % 256],
              payload.length % 256⟩ (payload.length / 256 % 256) =
          (⟨ParseState.data, [DMX_MAGIC_CMD, cmd, payload.length % 256,
              payload.length / 256 % 256], payload.length⟩, none) := by
        simp only [parse_rx_byte]
        rw [show payload.length % 256 + payload.length / 256 % 256 * 256 =
          payload.length by omega]
        rw [if_neg (by simp [CMD_BUF_SIZE]; omega), if_neg (by omega)]
        simp
      rw [parseRun_cons_none _ _ _ _ e1, parseRun_cons_none _ _ _ _ e2,
        parseRun_cons_none _ _ _ _ e3, parseRun_cons_none _ _ _ _ e4]
      rw [parseRun_append]
      rw [parseRun_data_fill payload
        [DMX_MAGIC_CMD, cmd, payload.length % 256, payload.length / 256 % 256]
        payload.length (by simp) (by intro hc; rw [hc] at hpos; simp at hpos)]
      have e5 : parse_rx_byte
          ⟨ParseState.checksum,
            [DMX_MAGIC_CMD, cmd, payload.length % 256,
              payload.length / 256 % 256] ++ payload, payload.length⟩
          (dmx_calc_checksum ([DMX_MAGIC_CMD, cmd, payload.length % 256,
              payload.length / 256 % 256] ++ payload)) =
          (⟨ParseState.idle,
            ([DMX_MAGIC_CMD, cmd, payload.length % 256,
              payload.length / 256 % 256] ++ payload) ++
              [dmx_calc_checksum ([DMX_MAGIC_CMD, cmd, payload.length % 256,
                payload.length / 256 % 256] ++ payload)], payload.length⟩,
            some (([DMX_MAGIC_CMD, cmd, payload.length % 256,
              payload.length / 256 % 256] ++ payload) ++
              [dmx_calc_checksum ([DMX_MAGIC_CMD, cmd, payload.length % 256,
                payload.length / 256 % 256] ++ payload)])) := by
        simp [parse_rx_byte]
      rw [parseRun_cons_some _ _ _ _ _ e5]
      simp [parseRun, hbytes]
  · simp [build_cmd_packet, pktMagic]
  · simp [build_cmd_packet, pktCmd]
  · simp [build_cmd_packet, pktLen]
    omega
  · have hlen2 : ∀ rest : List Nat,
        pktLen (DMX_MAGIC_CMD :: cmd :: payload.length % 256 ::
          payload.length / 256 % 256 :: rest) = payload.length := by
      intro rest
      simp [pktLen]
      omega
    simp only [pktPayload, build_cmd_packet, List.cons_append, List.nil_append]
    rw [hlen2]
    simp only [List.drop_succ_cons, List.drop_zero]
    exact List.take_left payload _
  · simp only [dmx_verify_checksum, build_cmd_packet]
    rw [if_neg (by simp)]
    rw [List.dropLast_concat, List.getLastD_concat]
    simp

/-- Claim C2, witness: the roundtrip theorem applied to the concrete
packet with cmd 3 and payload `[1, 2]`. -/
theorem c2_roundtrip_within_limit_witness :
    (([1, 2] : List Nat).length ≤ 595) ∧
    (parseRun Decoder.init (build_cmd_packet 3 [1, 2]) =
      (⟨ParseState.idle, build_cmd_packet 3 [1, 2], ([1, 2] : List Nat).length⟩,
        [build_cmd_packet 3 [1, 2]]) ∧
     pktMagic (build_cmd_packet 3 [1, 2]) = DMX_MAGIC_CMD ∧
     pktCmd (build_cmd_packet 3 [1, 2]) = 3 ∧
     pktLen (build_cmd_packet 3 [1, 2]) = ([1, 2] : List Nat).length ∧
     pktPayload (build_cmd_packet 3 [1, 2]) = [1, 2] ∧
     dmx_verify_checksum (build_cmd_packet 3 [1, 2]) = true) :=
  ⟨by decide, c2_roundtrip_within_limit 3 [1, 2] (by decide)⟩

/-! ### Claim C10 — STATUS_INVALID_MAGIC is unreachable -/

/-- One decoder step preserves the head invariant, and any packet it
completes starts with the 0xAA magic: the idle state only ever latches
an 0xAA byte into the front of the buffer, and every other state only
appends. -/
theorem parse_rx_byte_headOk (p : Decoder) (b : Nat) (h : p.headOk) :
    (parse_rx_byte p b).1.headOk ∧
    (∀ pkt, (parse_rx_byte p b).2 = some pkt →
      pkt.head? = some DMX_MAGIC_CMD) := by
  rcases p with ⟨st, buf, plen⟩
  cases st with
  | idle =>
    by_cases hb : b = DMX_MAGIC_CMD
    · subst hb
      constructor
      · intro _
        simp [parse_rx_byte]
      · intro pkt hpkt
        simp [parse_rx_byte] at hpkt
    · constructor
      · simp only [parse_rx_byte]
        rw [if_neg hb]
        exact h
      · intro pkt hpkt
        simp only [parse_rx_byte] at hpkt
        rw [if_neg hb] at hpkt
        simp at hpkt
  | cmd =>
    have hh := h (by simp)
    cases buf with
    | nil => simp at hh
    | cons a l =>
      simp at hh
      subst hh
      exact ⟨by intro _; simp [parse_rx_byte], by intro pkt hpkt; simp [parse_rx_byte] at hpkt⟩
  | lenLo =>
    have hh := h (by simp)
    cases buf with
    | nil => simp at hh
    | cons a l =>
      simp at hh
      subst hh
      exact ⟨by intro _; simp [parse_rx_byte], by intro pkt hpkt; simp [parse_rx_byte] at hpkt⟩
  | lenHi =>
    have hh := h (by simp)
    cases buf with
    | nil => simp at hh
    | cons a l =>
      simp at hh
      subst hh
      constructor
      · simp only [parse_rx_byte]
        split_ifs <;> intro hne <;> simp
      · intro pkt hpkt
        simp only [parse_rx_byte] at hpkt
        split_ifs at hpkt
  | data =>
    have hh := h (by simp)
    cases buf with
    | nil => simp at hh
    | cons a l =>
      simp at hh
      subst hh
      constructor
      · simp only [parse_rx_byte]
        split_ifs <;> intro hne <;> simp
      · intro pkt hpkt
        simp only [parse_rx_byte] at hpkt
        split_ifs at hpkt
  | checksum =>
    have hh := h (by simp)
    cases buf with
    | nil => simp at hh
    | cons a l =>
      simp at hh
      subst hh
      constructor
      · intro hne
        simp [parse_rx_byte] at hne
      · intro pkt hpkt
        simp [parse_rx_byte] at hpkt
        rw [← hpkt]
        simp

/-- The set-channels handler only answers OK, INVALID_LENGTH or
ERROR. -/
theorem handle_cmd_set_channels_status (d : McuDriver) (payload : List Nat) :
    (handle_cmd_set_channels d payload).2.1 ≠ STATUS_INVALID_MAGIC := by
  simp only [handle_cmd_set_channels]
  split_ifs <;>
    simp [STATUS_OK, STATUS_ERROR, STATUS_INVALID_LENGTH, STATUS_INVALID_MAGIC]

/-- The set-timing handler only answers OK, INVALID_LENGTH or
ERROR. -/
theorem handle_cmd_set_timing_status (d : McuDriver) (payload : List Nat) :
    (handle_cmd_set_timing d payload).2.1 ≠ STATUS_INVALID_MAGIC := by
  simp only [handle_cmd_set_timing]
  split_ifs <;>
    simp [STATUS_OK, STATUS_ERROR, STATUS_INVALID_LENGTH, STATUS_INVALID_MAGIC]

/-- The system-reset handler only answers OK, INVALID_LENGTH or
ERROR. -/
theorem handle_cmd_system_reset_status (d : McuDriver) (payload : List Nat) :
    (handle_cmd_system_reset d payload).2.1 ≠ STATUS_INVALID_MAGIC := by
  simp only [handle_cmd_system_reset]
  split_ifs <;>
    simp [STATUS_OK, STATUS_ERROR, STATUS_INVALID_LENGTH, STATUS_INVALID_MAGIC]

/-- The completed-packet handler never answers STATUS_INVALID_MAGIC
for a packet whose first byte is the 0xAA magic: the magic-mismatch
branch is not taken, and every other branch answers with OK,
INVALID_CHECKSUM, INVALID_LENGTH, INVALID_CMD or ERROR. -/
theorem handle_complete_packet_status_ne (d : McuDriver) (pkt : List Nat)
    (h : pkt.head? = some DMX_MAGIC_CMD) :
    (handle_complete_packet d pkt).2.1 ≠ STATUS_INVALID_MAGIC := by
  have hMagic : pkt.getD 0 0 = DMX_MAGIC_CMD := by
    cases pkt with
    | nil => simp at h
    | cons a l => simp at h; simp [h]
  simp only [handle_complete_packet]
  rw [if_neg (fun hc => hc hMagic)]
  split_ifs with hck
  · exact handle_cmd_set_channels_status d (pktPayload pkt)
  · simp [handle_cmd_get_status, STATUS_OK, STATUS_INVALID_MAGIC]
  · simp [STATUS_OK, STATUS_INVALID_MAGIC]
  · simp [STATUS_OK, STATUS_INVALID_MAGIC]
  · simp [STATUS_OK, STATUS_INVALID_MAGIC]
  · exact handle_cmd_set_timing_status d (pktPayload pkt)
  · simp [handle_cmd_get_timing, STATUS_OK, STATUS_INVALID_MAGIC]
  · exact handle_cmd_system_reset_status d (pktPayload pkt)
  · simp [STATUS_INVALID_CMD, STATUS_INVALID_MAGIC]
  · simp [STATUS_INVALID_CHECKSUM, STATUS_INVALID_MAGIC]

/-- Every response emitted while running the MCU pipeline from a state
whose decoder satisfies the head invariant has a status other than
STATUS_INVALID_MAGIC. -/
theorem mcuRun_no_invalid_magic (bytes : List Nat) :
    ∀ (s : McuSys), s.dec.headOk →
      ∀ r ∈ (mcuRun s bytes).2, r.1 ≠ STATUS_INVALID_MAGIC := by
  induction bytes with
  | nil => intro s _ r hr; simp [mcuRun] at hr
  | cons b bs ih =>
    intro s hs r hr
    have hstep := parse_rx_byte_headOk s.dec b hs
    rcases hp : (parse_rx_byte s.dec b).2 with _ | pkt
    · rw [show mcuRun s (b :: bs) = mcuRun ⟨(parse_rx_byte s.dec b).1, s.drv⟩ bs by
        simp [mcuRun, mcuStep, hp]] at hr
      exact ih ⟨(parse_rx_byte s.dec b).1, s.drv⟩ hstep.1 r hr
    · have hhead := hstep.2 pkt hp
      rw [show mcuRun s (b :: bs) =
          ((mcuRun ⟨(parse_rx_byte s.dec b).1,
              (handle_complete_packet s.drv pkt).1⟩ bs).1,
            (handle_complete_packet s.drv pkt).2 ::
              (mcuRun ⟨(parse_rx_byte s.dec b).1,
                (handle_complete_packet s.drv pkt).1⟩ bs).2) by
        simp [mcuRun, mcuStep, hp]] at hr
      rcases List.mem_cons.mp hr with hr1 | hr2
      · rw [hr1]
        exact handle_complete_packet_status_ne s.drv pkt hhead
      · exact ih ⟨(parse_rx_byte s.dec b).1,
          (handle_complete_packet s.drv pkt).1⟩ hstep.1 r hr2

/-- Claim C10 (confirmed): for every byte sequence fed to the MCU
pipeline from reset, no emitted response carries
STATUS_INVALID_MAGIC — the parser only starts accumulating on an 0xAA
byte, so the magic-mismatch branch of `handle_complete_packet` is
unreachable. -/
theorem c10_no_invalid_magic_response :
    ∀ bytes : List Nat,
      ((mcuRun McuSys.init bytes).2.map Prod.fst).all
        (fun v => v != STATUS_INVALID_MAGIC) = true := by
  intro bytes
  rw [List.all_eq_true]
  intro v hv
  rw [List.mem_map] at hv
  obtain ⟨r, hr, hveq⟩ := hv
  have hinit : (McuSys.init).dec.headOk := by
    intro hne
    simp [McuSys.init, Decoder.init] at hne
  have := mcuRun_no_invalid_magic bytes McuSys.init hinit r hr
  simp [← hveq, this]
